import Mathlib

/-!
Verification of the reminder scheduler core of this repository.

Shallow embedding of src/scheduler.rs (facade, coordinating loop, timer
behaviors), src/comm.rs (duration parsing) and src/bin/fmn.rs (clock-type
construction and validation).  Time is modelled in abstract Nat ticks;
each tokio select race is resolved by an explicit environment event or
oracle; channels are modelled by the data the code observes of them.

The copy of task_manager/task.rs under src/ is an older revision of the
ClockType enum (only Once and Period carrying a Duration); scheduler.rs
and fmn.rs, the code the claims are about, use the three-variant form
with Once carrying a timestamp, Period carrying the unparsed duration
string (scheduler.rs line 143 calls parse_duration on it) and
OncePerDay carrying hour and minute; the embedding follows those uses.
-/

namespace Reminder

/-- Task identifiers (task_manager/task.rs: type TaskID = String). -/
abbrev TaskID := String

/-- scheduler.rs TaskCommand: the only message on a cancellation channel. -/
inductive TaskCommand where
  | Stop
deriving DecidableEq

/-- tokio broadcast RecvError: Closed when every sender handle was dropped,
Lagged when the receiver fell behind the channel capacity. -/
inductive RecvError where
  | Closed
  | Lagged (skipped : Nat)
deriving DecidableEq

/-- scheduler.rs is_canceled (lines 289-299): Ok(Stop) is a cancellation and
every receive error is also treated as a cancellation (logged). -/
def is_canceled : Except RecvError TaskCommand → Bool
  | Except.ok TaskCommand.Stop => true
  | Except.error _ => true

/-- ClockType as used by scheduler.rs and fmn.rs (see the file comment):
Once carries the absolute fire time (Nat ticks here), Period the raw
duration string, OncePerDay the target hour and minute. -/
inductive ClockType where
  | Once (next_fire : Nat)
  | Period (period : String)
  | OncePerDay (hour : Nat) (minute : Nat)
deriving DecidableEq

/-- Outcome of a run of once_clock: the timestamps at which the Notifier
(desktop_notification) was invoked, and whether the past-time warning was
logged.  once_clock returns unit in the source; there is no error path. -/
structure OnceResult where
  fires : List Nat
  warned : Bool
deriving DecidableEq

/-- Resolution of the single select race in once_clock: either the
receiver resolved first (with the received value) or the sleep elapsed;
drift models the sleep completing at or after the requested duration. -/
inductive OnceRace where
  | recvFirst (v : Except RecvError TaskCommand)
  | sleepDone (drift : Nat)

/-- scheduler.rs once_clock (lines 259-287).  If now >= next_fire it logs a
warning and returns with no fire.  Otherwise it races the receiver against
sleep(next_fire - now): if the receiver resolves first the function returns
without firing whether or not is_canceled holds (the select arm body only
returns early on cancellation and nothing follows the select); if the sleep
elapses it invokes the Notifier once, at now + duration + drift, and the
notification result is only logged. -/
def once_clock (now next_fire : Nat) (race : OnceRace) : OnceResult :=
  if next_fire ≤ now then
    { fires := [], warned := true }
  else
    match race with
    | OnceRace.recvFirst v =>
        if is_canceled v then { fires := [], warned := false }
        else { fires := [], warned := false }
    | OnceRace.sleepDone drift =>
        { fires := [now + (next_fire - now) + drift], warned := false }

/-- Resolution of one iteration of the select race inside period_do:
either the receiver resolved (with the received value) or the sleep
elapsed (a wake). -/
inductive RaceEvent where
  | recv (v : Except RecvError TaskCommand)
  | wake

/-- scheduler.rs period_do (lines 235-257), driven by the list of race
resolutions observed so far: returns how many times after_wake ran and
whether after_cancel ran.  An exhausted list models a loop still waiting
at its race point.  after_wake is the only call site of the Notifier for
Period and OncePerDay tasks. -/
def period_do : List RaceEvent → Nat × Bool
  | [] => (0, false)
  | RaceEvent.recv v :: rest =>
      if is_canceled v then (0, true) else period_do rest
  | RaceEvent.wake :: rest =>
      let r := period_do rest
      (r.1 + 1, r.2)

/-- scheduler.rs period_clock (lines 201-233) composed with period_do: the
after_wake closure invokes the Notifier and, when the invocation fails,
sends Stop on the task's own sender clone (escalation policy).  State:
stopPending records that a self-sent Stop is queued on the channel;
fires counts Notifier invocations.  When a Stop is pending and the period
is positive, recv is ready at once while the fresh sleep is not, so the
recv arm wins the race deterministically and (is_canceled being true on
Ok(Stop)) the loop terminates.  Otherwise the oracle entry decides the
race: true means the sleep arm won (a wake), false that the receiver
resolved (an external cancel or channel event, all treated as
cancellation by is_canceled).  notifyOk i is the result of the i-th
Notifier invocation (0-based). -/
def period_clock_loop (period : Nat) (notifyOk : Nat → Bool) :
    List Bool → Bool → Nat → Nat
  | [], _, fires => fires
  | o :: rest, stopPending, fires =>
      if 0 < period ∧ stopPending = true then fires
      else if o then
        period_clock_loop period notifyOk rest
          (stopPending || !(notifyOk fires)) (fires + 1)
      else fires

/-- A period_clock run from its initial state: no pending stop, no fires. -/
def period_clock_run (period : Nat) (notifyOk : Nat → Bool)
    (oracle : List Bool) : Nat :=
  period_clock_loop period notifyOk oracle false 0

/-- The Rust cast x as u8 applied to an i8 value: two's-complement
reinterpretation, i.e. the value modulo 256. -/
def i8_as_u8 (x : Int) : Nat := (x.emod 256).toNat

/-- The OncePerDay after_wake closure (scheduler.rs lines 156-177):
now_hour = now.hour() as i8 + hour_diff and likewise for minutes, both
then cast to u8, and the Notifier is invoked iff the pair equals the
target (hour, minute).  hour_diff and minute_diff come from
UtcOffset::as_hms of the offset captured at startup.  No wraparound at
24 hours or 60 minutes is performed. -/
def daily_wake_fires (utc_hour utc_minute : Nat) (hour_diff minute_diff : Int)
    (hour minute : Nat) : Bool :=
  decide (i8_as_u8 ((utc_hour : Int) + hour_diff) = hour) &&
  decide (i8_as_u8 ((utc_minute : Int) + minute_diff) = minute)

/-- Follows the words of the spec, for comparison with daily_wake_fires:
the current local hour and minute obtained by adjusting UTC time with
the fixed offset, wrapping correctly at 24 hours and 60 minutes. -/
def local_hm_spec (utc_hour utc_minute : Nat) (hour_diff minute_diff : Int) :
    Nat × Nat :=
  (((((utc_hour * 60 + utc_minute : Nat) : Int) +
      (hour_diff * 60 + minute_diff)).emod 1440).toNat / 60,
   ((((utc_hour * 60 + utc_minute : Nat) : Int) +
      (hour_diff * 60 + minute_diff)).emod 1440).toNat % 60)

/-- A registry value: what InnerScheduler.cancel_task observes of a
broadcast sender — whether the task's receiver is still alive, which
decides whether send(Stop) succeeds. -/
structure CancelSender where
  receiverAlive : Bool
deriving DecidableEq

/-- Outcome of InnerScheduler::cancel_task: the registry afterwards,
whether a Stop was delivered, whether the unknown-id warning was logged,
and the Result value returned to the coordinating loop. -/
structure CancelOutcome where
  registry : TaskID → Option CancelSender
  sentStop : Bool
  warnedUnknown : Bool
  result : Except String Unit

/-- scheduler.rs InnerScheduler::cancel_task (lines 184-198): look the id
up in cancel_channels; if found, send Stop (an Err when the receiver is
gone is returned to the caller of this method); if not found, log a
warning and return Ok.  The map is only read — no entry is removed. -/
def InnerScheduler.cancel_task (reg : TaskID → Option CancelSender)
    (id : TaskID) : CancelOutcome :=
  match reg id with
  | some s =>
      if s.receiverAlive then
        { registry := reg, sentStop := true, warnedUnknown := false,
          result := Except.ok () }
      else
        { registry := reg, sentStop := false, warnedUnknown := false,
          result := Except.error "fail to send cancel task" }
  | none =>
      { registry := reg, sentStop := false, warnedUnknown := true,
        result := Except.ok () }

/-- What the coordinating loop makes visible when it processes one Cancel
command: the registry afterwards, what was logged, and what reaches the
caller of the facade (nothing is ever sent back over the channel, so the
caller-visible error is always none). -/
structure LoopCancelView where
  registry : TaskID → Option CancelSender
  callerError : Option String
  loggedWarn : Bool
  loggedError : Bool

/-- scheduler.rs InnerScheduler::start, Cancel arm (lines 121-127): call
cancel_task; an Err is only logged with error!; nothing is reported back
to the facade caller. -/
def start_handle_cancel (reg : TaskID → Option CancelSender)
    (id : TaskID) : LoopCancelView :=
  { registry := (InnerScheduler.cancel_task reg id).registry
    callerError := none
    loggedWarn := (InnerScheduler.cancel_task reg id).warnedUnknown
    loggedError :=
      match (InnerScheduler.cancel_task reg id).result with
      | Except.ok _ => false
      | Except.error _ => true }

/-- scheduler.rs InnerScheduler::add_task line 181:
cancel_channels.insert(task_id, sender) — a HashMap insert, which
replaces any existing entry for the same id. -/
def registry_insert (reg : TaskID → Option CancelSender) (id : TaskID)
    (s : CancelSender) : TaskID → Option CancelSender :=
  fun i => if i = id then some s else reg i

/-- Whether the spawned timer behavior keeps a clone of its own
cancellation sender (scheduler.rs lines 141-179): once_clock receives
only the receiver; period_clock is passed sender.clone() (line 145); the
OncePerDay after_wake closure captures a sender clone (line 149). -/
def behavior_holds_sender : ClockType → Bool
  | ClockType.Once _ => false
  | ClockType.Period _ => true
  | ClockType.OncePerDay _ _ => true

/-- A tokio broadcast channel closes when every sender handle is dropped.
After the registry entry is replaced, the registry's sender for the old
channel is dropped; the old channel is then closed iff the old behavior
holds no sender clone of its own. -/
def replace_closes_old_channel (c : ClockType) : Bool :=
  !(behavior_holds_sender c)

/-- Outcome of a facade call: panicked models the panic! on a closed
command channel; accepted models Ok(()) after a successful blocking_send;
sendErr models the anyhow error returned when blocking_send fails. -/
inductive CallOutcome where
  | panicked
  | accepted
  | sendErr (msg : String)
deriving DecidableEq

/-- Whether a facade call outcome is an error value returned to the
caller (as opposed to success or a panic). -/
def CallOutcome.isCallerError : CallOutcome → Bool
  | CallOutcome.sendErr _ => true
  | _ => false

/-- scheduler.rs Scheduler::add_task (lines 61-76): first
check_inner_scheduler_crashed, i.e. task_sender.is_closed(); if the
channel is closed, panic.  Otherwise blocking_send the Add command;
sendOk is whether that send succeeds. -/
def Scheduler.add_task (senderClosed sendOk : Bool) : CallOutcome :=
  if senderClosed then CallOutcome.panicked
  else if sendOk then CallOutcome.accepted
  else CallOutcome.sendErr "fail to send new task to inner scheduler"

/-- scheduler.rs Scheduler::cancel_task (lines 78-99): same shape as
add_task with the Cancel command. -/
def Scheduler.cancel_task (senderClosed sendOk : Bool) : CallOutcome :=
  if senderClosed then CallOutcome.panicked
  else if sendOk then CallOutcome.accepted
  else CallOutcome.sendErr "fail to send cancel task to inner scheduler"

/-- Decimal value of a digit string, as u64 parse computes it before the
overflow check. -/
def digitsVal (ds : List Char) : Nat :=
  ds.foldl (fun a c => a * 10 + (c.toNat - 48)) 0

/-- Splits the longest leading run of ASCII digits from the input. -/
def takeDigits : List Char → List Char × List Char
  | [] => ([], [])
  | c :: rest =>
      if c.isDigit then
        let r := takeDigits (rest)
        (c :: r.1, r.2)
      else ([], c :: rest)

/-- One optional regex group (\d+X)? for a unit letter X: it matches iff
the input starts with at least one digit directly followed by the
letter (digits are greedy and the letter is fixed, so matching is
deterministic); otherwise the group is skipped and the input is left
untouched. -/
def groupOpt (letter : Char) (s : List Char) : Option (List Char) × List Char :=
  let r := takeDigits s
  match r.2 with
  | c :: rest2 =>
      if r.1 ≠ [] ∧ c = letter then (some r.1, rest2) else (none, s)
  | [] => (none, s)

/-- comm.rs parse_duration regex (line 44):
the anchored pattern of four optional groups day d, hour h, minute m,
second s; returns the captured digit strings when the whole input
matches. -/
def durationCaptures (s : List Char) :
    Option (Option (List Char) × Option (List Char) ×
            Option (List Char) × Option (List Char)) :=
  let d := groupOpt (Char.ofNat 100) s
  let h := groupOpt (Char.ofNat 104) d.2
  let m := groupOpt (Char.ofNat 109) h.2
  let sec := groupOpt (Char.ofNat 115) m.2
  if sec.2.isEmpty then some (d.1, h.1, m.1, sec.1) else none

/-- 2 to the 64th: the modulus of u64 arithmetic. -/
def U64_MOD : Nat := 18446744073709551616

/-- One component of parse_duration: the captured digits (or the default
string 0 when the group did not participate) parsed as u64; the parse
fails on values that overflow u64, which comm.rs surfaces as
invalid-component errors. -/
def parseComponentU64 (componentName : String) (o : Option (List Char)) :
    Except String Nat :=
  let v := digitsVal (o.getD [Char.ofNat 48])
  if v < U64_MOD then Except.ok v
  else Except.error ("invalid " ++ componentName)

/-- comm.rs parse_duration (lines 42-72): reject inputs the regex does
not match; parse the four captured components as u64 (missing ones as
0); return day*3600*24 + hour*3600 + minute*60 + second seconds, the
u64 arithmetic modelled with wraparound.  The source's final else branch
(captures absent although the regex matched) is unreachable and omitted.
Note the empty string and strings such as 0s match the regex and yield
Ok(0 seconds). -/
def parse_duration (s : String) : Except String Nat :=
  match durationCaptures s.toList with
  | none =>
      Except.error "invalid duration format; valid examples: 1d1h1m1s, 2h, 30s, 55m"
  | some caps =>
      match parseComponentU64 "day" caps.1 with
      | Except.error e => Except.error e
      | Except.ok dv =>
        match parseComponentU64 "hour" caps.2.1 with
        | Except.error e => Except.error e
        | Except.ok hv =>
          match parseComponentU64 "minute" caps.2.2.1 with
          | Except.error e => Except.error e
          | Except.ok mv =>
            match parseComponentU64 "second" caps.2.2.2 with
            | Except.error e => Except.error e
            | Except.ok sv =>
              Except.ok ((dv * 3600 * 24 + hv * 3600 + mv * 60 + sv) % U64_MOD)

/-- fmn.rs AddCommand::After (lines 74-81): parse the duration, reject a
zero result, otherwise build Once(now + duration). -/
def after_command (now : Nat) (duration : String) : Except String ClockType :=
  match parse_duration duration with
  | Except.error e => Except.error e
  | Except.ok secs =>
      if secs = 0 then Except.error "after <duration> should not be 0"
      else Except.ok (ClockType.Once (now + secs))

/-- fmn.rs AddCommand::Per (lines 82-85): only checks that the duration
parses; the parsed value is discarded and the raw string is stored, with
no rejection of zero. -/
def per_command (duration : String) : Except String ClockType :=
  match parse_duration duration with
  | Except.error e => Except.error e
  | Except.ok _ => Except.ok (ClockType.Period duration)

/-- Every value a receiver can resolve with — Ok(Stop), the channel
closed, or a lag error — is treated as a cancellation by is_canceled. -/
theorem is_canceled_true (v : Except RecvError TaskCommand) :
    is_canceled v = true := by
  cases v with
  | ok c => cases c; rfl
  | error e => rfl

/-- Helper for the escalation bound: once notifyOk k is false, any run of
the period_clock loop performs at most k + 1 Notifier invocations,
stated with the loop state generalized for the induction. -/
theorem period_clock_loop_le (period k : Nat) (notifyOk : Nat → Bool)
    (hp : 0 < period) (hk : notifyOk k = false) :
    ∀ (oracle : List Bool) (sp : Bool) (f : Nat),
      f ≤ k + 1 → (sp = false → f ≤ k) →
      period_clock_loop period notifyOk oracle sp f ≤ k + 1 := by
  intro oracle
  induction oracle with
  | nil =>
      intro sp f h1 _
      simpa [period_clock_loop] using h1
  | cons o rest ih =>
      intro sp f h1 h2
      simp only [period_clock_loop]
      split
      · exact h1
      · rename_i hcond
        split
        · apply ih
          · have hsp : sp = false := by
              cases sp
              · rfl
              · exact absurd ⟨hp, rfl⟩ hcond
            have := h2 hsp
            omega
          · intro hnew
            have hsp : sp = false := by
              cases sp
              · rfl
              · simp at hnew
            have hok : notifyOk f = true := by
              cases hno : notifyOk f
              · rw [hsp, hno] at hnew
                simp at hnew
              · rfl
            have hfk : f ≤ k := h2 hsp
            have hne : f ≠ k := by
              intro he
              rw [he, hk] at hok
              exact absurd hok (by simp)
            omega
        · exact h1

/-- C1: for a Once task whose target time is strictly in the future and
whose cancellation signal does not win the race, once_clock invokes the
Notifier exactly once (the fires list is one element), at or after the
target time, and returns without further invocations. -/
theorem once_future_fires_once_at_or_after (now nf drift : Nat)
    (h : now < nf) :
    (once_clock now nf (OnceRace.sleepDone drift)).fires = [nf + drift] ∧
    nf ≤ nf + drift := by
  have hnot : ¬ nf ≤ now := by omega
  refine ⟨?_, by omega⟩
  simp only [once_clock, if_neg hnot, List.cons.injEq, and_true]
  omega

/-- Witness for C1 at now = 0, target 5, drift 2. -/
theorem once_future_fires_once_at_or_after_witness :
    0 < 5 ∧ (once_clock 0 5 (OnceRace.sleepDone 2)).fires = [7] :=
  ⟨by decide, (once_future_fires_once_at_or_after 0 5 2 (by decide)).1⟩

/-- C2: for a Once task whose target time is not in the future,
once_clock terminates at once with zero Notifier invocations, logging
the past-time warning; the function returns normally (OnceResult carries
no error) so this is a no-op, not an error. -/
theorem once_past_zero_fires_noop (now nf : Nat) (race : OnceRace)
    (h : nf ≤ now) :
    (once_clock now nf race).fires = [] ∧
    (once_clock now nf race).warned = true := by
  simp [once_clock, h]

/-- Witness for C2 at now = 5, target 3. -/
theorem once_past_zero_fires_noop_witness :
    3 ≤ 5 ∧ ((once_clock 5 3 (OnceRace.sleepDone 0)).fires = [] ∧
      (once_clock 5 3 (OnceRace.sleepDone 0)).warned = true) :=
  ⟨by decide, once_past_zero_fires_noop 5 3 (OnceRace.sleepDone 0) (by decide)⟩

/-- C3: any value the cancellation receiver resolves with — including the
channel closing — counts as cancellation; a Once task whose receiver
wins the race never invokes the Notifier; and a period_do loop (the
shared race primitive of Period and OncePerDay tasks, whose after_wake
is the only Notifier call site) whose first race resolves to the
receiver terminates with zero after_wake invocations. -/
theorem cancel_before_fire_zero_invocations :
    (∀ v, is_canceled v = true) ∧
    (∀ now nf v, (once_clock now nf (OnceRace.recvFirst v)).fires = []) ∧
    (∀ v rest, period_do (RaceEvent.recv v :: rest) = (0, true)) := by
  refine ⟨is_canceled_true, ?_, ?_⟩
  · intro now nf v
    simp only [once_clock]
    split
    · rfl
    · split <;> rfl
  · intro v rest
    simp [period_do, is_canceled_true]

/-- C4: in a period_clock run with a positive period, if the Notifier
invocation of index k reports failure, the task queues a Stop to itself
and the next race resolves to the receiver, so no run — whatever the
oracle resolves — ever performs more than k + 1 Notifier invocations. -/
theorem period_notify_failure_stops_fires (period k : Nat)
    (notifyOk : Nat → Bool) (oracle : List Bool)
    (hp : 0 < period) (hk : notifyOk k = false) :
    period_clock_run period notifyOk oracle ≤ k + 1 :=
  period_clock_loop_le period k notifyOk hp hk oracle false 0
    (by omega) (fun _ => by omega)

/-- Witness for C4: period 1, Notifier failing on its second call
(index 1), a run of four wake-favoring races performs 2 ≤ 2 calls. -/
theorem period_notify_failure_stops_fires_witness :
    0 < 1 ∧ (fun i => decide (i ≠ 1)) 1 = false ∧
    period_clock_run 1 (fun i => decide (i ≠ 1)) [true, true, true, true] ≤ 2 :=
  ⟨by decide, by decide,
    period_notify_failure_stops_fires 1 1 (fun i => decide (i ≠ 1))
      [true, true, true, true] (by decide) (by decide)⟩

/-- C5 counterexample: with the command channel closed (the background
context terminated), Scheduler::add_task and Scheduler::cancel_task
panic; no error value of any kind — in particular no SchedulerUnavailable
— is returned to the caller. -/
theorem facade_crash_panics_cex :
    Scheduler.add_task true true = CallOutcome.panicked ∧
    (Scheduler.add_task true true).isCallerError = false ∧
    Scheduler.cancel_task true true = CallOutcome.panicked ∧
    (Scheduler.cancel_task true true).isCallerError = false :=
  ⟨rfl, rfl, rfl, rfl⟩

/-- C5 amended: after the background context terminates, every
subsequent facade call deterministically and immediately panics — it
fails fatally rather than returning a SchedulerUnavailable error — and
never silently succeeds. -/
theorem facade_crash_always_panics (sendOk : Bool) :
    Scheduler.add_task true sendOk = CallOutcome.panicked ∧
    Scheduler.cancel_task true sendOk = CallOutcome.panicked ∧
    Scheduler.add_task true sendOk ≠ CallOutcome.accepted ∧
    Scheduler.cancel_task true sendOk ≠ CallOutcome.accepted := by
  refine ⟨rfl, rfl, ?_, ?_⟩
  · simp [Scheduler.add_task]
  · simp [Scheduler.cancel_task]

/-- C6 counterexample: processing a Cancel for a registered task id
leaves the id's entry in the registry — the entry is not removed. -/
theorem inner_cancel_entry_remains_cex :
    (InnerScheduler.cancel_task
        (fun i => if i = "t1" then some { receiverAlive := true } else none)
        "t1").registry "t1" = some { receiverAlive := true } := rfl

/-- C6 amended: processing an explicit Cancel sends the stop signal to
the entry's channel when the id is registered and its receiver is alive,
but never removes the entry: the Cancellation Registry is unchanged. -/
theorem inner_cancel_registry_unchanged (reg : TaskID → Option CancelSender)
    (id : TaskID) :
    (InnerScheduler.cancel_task reg id).registry = reg ∧
    (InnerScheduler.cancel_task reg id).sentStop =
      (match reg id with
       | some s => s.receiverAlive
       | none => false) := by
  rcases hreg : reg id with _ | s
  · simp [InnerScheduler.cancel_task, hreg]
  · cases hs : s.receiverAlive <;>
      simp [InnerScheduler.cancel_task, hreg, hs]

/-- C7 counterexample: at UTC 23:00 with a +02:00 offset the correct
local time is 01:00, matching a target of 01:00, but the code computes
hour 23 + 2 = 25 with no wraparound and does not invoke the Notifier. -/
theorem daily_no_wraparound_cex :
    daily_wake_fires 23 0 2 0 1 0 = false ∧
    local_hm_spec 23 0 2 0 = (1, 0) := by
  constructor
  · decide
  · decide

/-- C7 amended: on each wake the OncePerDay behavior adds the offset
components to the UTC hour and minute and casts through u8 (mod 256)
with no wraparound at 24 hours or 60 minutes, firing iff the raw sums
equal the target; this agrees with the correctly wrapped local time only
when both sums are already in range. -/
theorem daily_match_in_range_iff (uh um : Nat) (hd md : Int) (h m : Nat)
    (hh0 : 0 ≤ (uh : Int) + hd) (hh1 : (uh : Int) + hd < 24)
    (hm0 : 0 ≤ (um : Int) + md) (hm1 : (um : Int) + md < 60) :
    (daily_wake_fires uh um hd md h m = true ↔
      local_hm_spec uh um hd md = (h, m)) := by
  have e1 : ((uh : Int) + hd).emod 256 = (uh : Int) + hd :=
    Int.emod_eq_of_lt hh0 (by omega)
  have e2 : ((um : Int) + md).emod 256 = (um : Int) + md :=
    Int.emod_eq_of_lt hm0 (by omega)
  have e3 : (((uh * 60 + um : Nat) : Int) + (hd * 60 + md)) =
      ((uh : Int) + hd) * 60 + ((um : Int) + md) := by
    push_cast
    ring
  have e4 : (((uh * 60 + um : Nat) : Int) + (hd * 60 + md)).emod 1440 =
      ((uh : Int) + hd) * 60 + ((um : Int) + md) := by
    rw [e3]
    exact Int.emod_eq_of_lt (by omega) (by omega)
  simp only [daily_wake_fires, local_hm_spec, i8_as_u8, Bool.and_eq_true,
    decide_eq_true_eq, Prod.mk.injEq, e1, e2, e4]
  omega

/-- Witness for C7 amended at UTC 10:30, offset +02:00, target 12:30. -/
theorem daily_match_in_range_iff_witness :
    (0 : Int) ≤ 10 + 2 ∧ (10 : Int) + 2 < 24 ∧
    (0 : Int) ≤ 30 + 0 ∧ (30 : Int) + 0 < 60 ∧
    (daily_wake_fires 10 30 2 0 12 30 = true ↔
      local_hm_spec 10 30 2 0 = (12, 30)) :=
  ⟨by decide, by decide, by decide, by decide,
    daily_match_in_range_iff 10 30 2 0 12 30 (by decide) (by decide)
      (by decide) (by decide)⟩

/-- C8 counterexample: the duration string 0s parses to zero seconds,
yet the Per command accepts it and constructs a Period clock type, so a
zero-length Period reaches the core. -/
theorem zero_period_accepted_cex :
    parse_duration "0s" = Except.ok 0 ∧
    per_command "0s" = Except.ok (ClockType.Period "0s") := ⟨rfl, rfl⟩

/-- C8 amended: zero-length durations are rejected before a clock type
is constructed for the one-shot After command, but the Per command only
validates the duration format, so a zero-length Period duration is
accepted and reaches the core. -/
theorem zero_duration_validation_split (now : Nat) (d : String)
    (h : parse_duration d = Except.ok 0) :
    after_command now d = Except.error "after <duration> should not be 0" ∧
    per_command d = Except.ok (ClockType.Period d) := by
  refine ⟨?_, ?_⟩
  · simp [after_command, h]
  · simp [per_command, h]

/-- Witness for C8 amended at the duration string 0s. -/
theorem zero_duration_validation_split_witness :
    parse_duration "0s" = Except.ok 0 ∧
    (after_command 7 "0s" = Except.error "after <duration> should not be 0" ∧
     per_command "0s" = Except.ok (ClockType.Period "0s")) :=
  ⟨rfl, zero_duration_validation_split 7 "0s" rfl⟩

/-- C9: when the coordinating loop processes a Cancel command, nothing
is ever surfaced to the caller as an error: an unknown id only logs a
warning, a failed stop-signal send (task already finished) only logs an
error. -/
theorem loop_cancel_success_to_caller (reg : TaskID → Option CancelSender)
    (id : TaskID) :
    (start_handle_cancel reg id).callerError = none ∧
    (start_handle_cancel reg id).loggedWarn = (reg id).isNone ∧
    (start_handle_cancel reg id).loggedError =
      (match reg id with
       | some s => !s.receiverAlive
       | none => false) := by
  rcases hreg : reg id with _ | s
  · simp [start_handle_cancel, InnerScheduler.cancel_task, hreg]
  · cases hs : s.receiverAlive <;>
      simp [start_handle_cancel, InnerScheduler.cancel_task, hreg, hs]

/-- C10 counterexample: a Period behavior keeps a clone of its own
cancellation sender, so replacing the registry entry for its id does not
close its cancellation channel (and likewise for OncePerDay); the
claimed close-on-replacement termination does not happen for them. -/
theorem duplicate_add_period_channel_open_cex :
    behavior_holds_sender (ClockType.Period "1s") = true ∧
    replace_closes_old_channel (ClockType.Period "1s") = false ∧
    replace_closes_old_channel (ClockType.OncePerDay 8 30) = false :=
  ⟨rfl, rfl, rfl⟩

/-- C10 amended: adding a task whose id equals a live task's silently
replaces the registry entry; dropping the old sender closes the old
channel only for Once tasks, whose behavior holds no sender clone — the
old Once behavior then sees the closed-channel receive error, treated as
cancellation, and terminates with no fire; Period and OncePerDay
behaviors hold a sender clone, so their channel stays open and they are
not terminated by the replacement. -/
theorem duplicate_add_replacement_effects (reg : TaskID → Option CancelSender)
    (id : TaskID) (snew : CancelSender) :
    (registry_insert reg id snew) id = some snew ∧
    (∀ t, replace_closes_old_channel (ClockType.Once t) = true) ∧
    is_canceled (Except.error RecvError.Closed) = true ∧
    (∀ now nf,
      (once_clock now nf
        (OnceRace.recvFirst (Except.error RecvError.Closed))).fires = []) ∧
    (∀ p, replace_closes_old_channel (ClockType.Period p) = false) ∧
    (∀ hh mm, replace_closes_old_channel (ClockType.OncePerDay hh mm) = false) := by
  refine ⟨?_, fun t => rfl, rfl, ?_, fun p => rfl, fun hh mm => rfl⟩
  · simp [registry_insert]
  · intro now nf
    simp only [once_clock]
    split
    · rfl
    · rfl

end Reminder
